/-
Verification of the imu_tk core (AUROVA fork): the `CalibratedTriad`
transform model and the static-interval segmentation filter.

Shallow embedding of:
  * `src/include/imu_tk/calibration.h` — `CalibratedTriad<_T>`: the twelve
    scalar shape parameters, the cached matrices `mis_mat_`, `scale_mat_`,
    `bias_vec_`, `ms_mat_`, the constructor, the accessors, `setScale`,
    `setBias`, `normalize`, `unbiasNormalize`, `unbias` (both overloads),
    `load` and `save`.
  * `src/src/filters.cpp` — `staticIntervalsDetector`.

The numeric template parameter `_T` (float / double in the source) is
embedded as `ℚ`: the source is generic over the numeric type and every
operation used is field arithmetic, so the rational instance captures the
exact algebra of the code.  File streams are embedded as
`Option (List ℚ)`: `none` is a file that cannot be opened, `some ns` is an
opened file holding the whitespace-separated numbers `ns` in order.
C++ member functions are embedded state-passing: a method of
`CalibratedTriad` takes the receiver and returns the (possibly updated)
receiver together with its result.
-/
import Mathlib

namespace ImuTk

/-- A 3-component column vector (`Eigen::Matrix<_T,3,1>`). -/
structure Vec3 where
  x : ℚ
  y : ℚ
  z : ℚ
deriving DecidableEq, Repr

/-- A 3×3 matrix (`Eigen::Matrix<_T,3,3>`), entries `a i j` row `i`, column `j`. -/
structure Mat3 where
  a11 : ℚ
  a12 : ℚ
  a13 : ℚ
  a21 : ℚ
  a22 : ℚ
  a23 : ℚ
  a31 : ℚ
  a32 : ℚ
  a33 : ℚ
deriving DecidableEq, Repr

/-- Matrix-vector product. -/
def Mat3.mulVec (m : Mat3) (v : Vec3) : Vec3 :=
  ⟨m.a11 * v.x + m.a12 * v.y + m.a13 * v.z,
   m.a21 * v.x + m.a22 * v.y + m.a23 * v.z,
   m.a31 * v.x + m.a32 * v.y + m.a33 * v.z⟩

/-- Matrix-matrix product. -/
def Mat3.mul (m n : Mat3) : Mat3 :=
  ⟨m.a11 * n.a11 + m.a12 * n.a21 + m.a13 * n.a31,
   m.a11 * n.a12 + m.a12 * n.a22 + m.a13 * n.a32,
   m.a11 * n.a13 + m.a12 * n.a23 + m.a13 * n.a33,
   m.a21 * n.a11 + m.a22 * n.a21 + m.a23 * n.a31,
   m.a21 * n.a12 + m.a22 * n.a22 + m.a23 * n.a32,
   m.a21 * n.a13 + m.a22 * n.a23 + m.a23 * n.a33,
   m.a31 * n.a11 + m.a32 * n.a21 + m.a33 * n.a31,
   m.a31 * n.a12 + m.a32 * n.a22 + m.a33 * n.a32,
   m.a31 * n.a13 + m.a32 * n.a23 + m.a33 * n.a33⟩

/-- Componentwise vector difference. -/
def Vec3.sub (u v : Vec3) : Vec3 :=
  ⟨u.x - v.x, u.y - v.y, u.z - v.z⟩

/-- The entries of a matrix in row-major order, as `Eigen` streams and
`Eigen::Map<... Eigen::RowMajor>` reads them. -/
def Mat3.rowMajor (m : Mat3) : List ℚ :=
  [m.a11, m.a12, m.a13, m.a21, m.a22, m.a23, m.a31, m.a32, m.a33]

/-- Rebuild a matrix from (at least) nine row-major entries; missing
entries default to 0 (never exercised by the source contract). -/
def Mat3.ofRowMajor (l : List ℚ) : Mat3 :=
  ⟨l.getD 0 0, l.getD 1 0, l.getD 2 0,
   l.getD 3 0, l.getD 4 0, l.getD 5 0,
   l.getD 6 0, l.getD 7 0, l.getD 8 0⟩

/-- Rebuild a column vector from (at least) three entries. -/
def Vec3.ofList (l : List ℚ) : Vec3 :=
  ⟨l.getD 0 0, l.getD 1 0, l.getD 2 0⟩

/-- Modelled from the spec: `TriadData_<_T>` lives in `imu_tk/base.h`,
which is not among the given sources.  The spec describes it as an
immutable timestamped 3-component sample; `filters.cpp` additionally reads
a per-sample `interval_id()` (externally assigned; `-1` is the reserved
"not part of any static interval" sentinel). -/
structure TriadData where
  timestamp : ℚ
  data : Vec3
  interval_id : Int
deriving DecidableEq, Repr

/-- Modelled from the spec: the two-argument `TriadData` constructor used
by the `CalibratedTriad` sample overloads (`base.h` is not among the given
sources).  It carries the timestamp and the vector; the interval id of a
freshly built sample is the "unassigned" sentinel. -/
def TriadData.mkTs (t : ℚ) (v : Vec3) : TriadData :=
  ⟨t, v, -1⟩

/-- `DataInterval`: an inclusive index range, as constructed and mutated
by `filters.cpp` (`DataInterval(-1,-1)`, `.start_idx`, `.end_idx`). -/
structure DataInterval where
  start_idx : Int
  end_idx : Int
deriving DecidableEq, Repr

/-- `CalibratedTriad<_T>`: twelve scalar shape parameters plus the four
cached matrices, exactly the private fields of the class. -/
structure CalibratedTriad where
  mis_yz_ : ℚ
  mis_zy_ : ℚ
  mis_zx_ : ℚ
  mis_xz_ : ℚ
  mis_xy_ : ℚ
  mis_yx_ : ℚ
  s_x_ : ℚ
  s_y_ : ℚ
  s_z_ : ℚ
  b_x_ : ℚ
  b_y_ : ℚ
  b_z_ : ℚ
  mis_mat_ : Mat3
  scale_mat_ : Mat3
  bias_vec_ : Vec3
  ms_mat_ : Mat3
deriving DecidableEq, Repr

namespace CalibratedTriad

/-- The constructor: stores the twelve scalars, builds `mis_mat_` and
`scale_mat_` from them, caches `ms_mat_ = mis_mat_ * scale_mat_` and
`bias_vec_`. -/
def init (mis_yz mis_zy mis_zx mis_xz mis_xy mis_yx s_x s_y s_z b_x b_y b_z : ℚ) :
    CalibratedTriad :=
  let mis_mat : Mat3 :=
    ⟨1, -mis_yz, mis_zy,
     mis_xz, 1, -mis_zx,
     -mis_xy, mis_yx, 1⟩
  let scale_mat : Mat3 :=
    ⟨s_x, 0, 0,
     0, s_y, 0,
     0, 0, s_z⟩
  { mis_yz_ := mis_yz, mis_zy_ := mis_zy, mis_zx_ := mis_zx,
    mis_xz_ := mis_xz, mis_xy_ := mis_xy, mis_yx_ := mis_yx,
    s_x_ := s_x, s_y_ := s_y, s_z_ := s_z,
    b_x_ := b_x, b_y_ := b_y, b_z_ := b_z,
    mis_mat_ := mis_mat,
    scale_mat_ := scale_mat,
    bias_vec_ := ⟨b_x, b_y, b_z⟩,
    ms_mat_ := Mat3.mul mis_mat scale_mat }

/-- Default construction `CalibratedTriad()`: all defaulted arguments. -/
def initDefault : CalibratedTriad := init 0 0 0 0 0 0 1 1 1 0 0 0

def misYZ (c : CalibratedTriad) : ℚ := c.mis_yz_
def misZY (c : CalibratedTriad) : ℚ := c.mis_zy_
def misZX (c : CalibratedTriad) : ℚ := c.mis_zx_
def misXZ (c : CalibratedTriad) : ℚ := c.mis_xz_
def misXY (c : CalibratedTriad) : ℚ := c.mis_xy_
def misYX (c : CalibratedTriad) : ℚ := c.mis_yx_
def scaleX (c : CalibratedTriad) : ℚ := c.s_x_
def scaleY (c : CalibratedTriad) : ℚ := c.s_y_
def scaleZ (c : CalibratedTriad) : ℚ := c.s_z_
def biasX (c : CalibratedTriad) : ℚ := c.b_x_
def biasY (c : CalibratedTriad) : ℚ := c.b_y_
def biasZ (c : CalibratedTriad) : ℚ := c.b_z_

def getMisalignmentMatrix (c : CalibratedTriad) : Mat3 := c.mis_mat_
def getScaleMatrix (c : CalibratedTriad) : Mat3 := c.scale_mat_
def getBiasVector (c : CalibratedTriad) : Vec3 := c.bias_vec_

/-- `setScale`: assigns `s_x_`, `s_y_`, `s_z_` — and, as in the source,
nothing else. -/
def setScale (c : CalibratedTriad) (s_vec : Vec3) : CalibratedTriad :=
  { c with s_x_ := s_vec.x, s_y_ := s_vec.y, s_z_ := s_vec.z }

/-- `setBias`: assigns `b_x_`, `b_y_`, `b_z_` — and, as in the source,
nothing else. -/
def setBias (c : CalibratedTriad) (b_vec : Vec3) : CalibratedTriad :=
  { c with b_x_ := b_vec.x, b_y_ := b_vec.y, b_z_ := b_vec.z }

/-- `normalize` (vector overload): `ms_mat_ * raw_data`; a non-const
member, so the receiver is threaded through. -/
def normalize (c : CalibratedTriad) (raw_data : Vec3) : CalibratedTriad × Vec3 :=
  (c, c.ms_mat_.mulVec raw_data)

/-- `normalize` (timestamped overload): keeps the timestamp, transforms
the vector. -/
def normalizeData (c : CalibratedTriad) (raw_data : TriadData) :
    CalibratedTriad × TriadData :=
  let r := normalize c raw_data.data
  (r.1, TriadData.mkTs raw_data.timestamp r.2)

/-- `unbiasNormalize` (vector overload): `ms_mat_ * (raw_data - bias_vec_)`. -/
def unbiasNormalize (c : CalibratedTriad) (raw_data : Vec3) :
    CalibratedTriad × Vec3 :=
  (c, c.ms_mat_.mulVec (raw_data.sub c.bias_vec_))

/-- `unbiasNormalize` (timestamped overload). -/
def unbiasNormalizeData (c : CalibratedTriad) (raw_data : TriadData) :
    CalibratedTriad × TriadData :=
  let r := unbiasNormalize c raw_data.data
  (r.1, TriadData.mkTs raw_data.timestamp r.2)

/-- `unbias` (vector overload): `raw_data - bias_vec_`. -/
def unbias (c : CalibratedTriad) (raw_data : Vec3) : CalibratedTriad × Vec3 :=
  (c, raw_data.sub c.bias_vec_)

/-- `unbias` (timestamped overload). -/
def unbiasData (c : CalibratedTriad) (raw_data : TriadData) :
    CalibratedTriad × TriadData :=
  let r := unbias c raw_data.data
  (r.1, TriadData.mkTs raw_data.timestamp r.2)

/-- One formatted extraction `file >> v`: pops the next number from the
stream; extraction from an exhausted stream writes 0 (and the stream stays
exhausted). -/
def streamRead : List ℚ → ℚ × List ℚ
  | [] => (0, [])
  | n :: rest => (n, rest)

/-- The `for( int i=0; i<n; i++) file >> mat[i];` loops: read `n` numbers
in order, returning them and the rest of the stream. -/
def readNums : Nat → List ℚ → List ℚ × List ℚ
  | 0, s => ([], s)
  | n + 1, s =>
    let r1 := streamRead s
    let r2 := readNums n r1.2
    (r1.1 :: r2.1, r2.2)

/-- `load(filename)`: `none` is a file that cannot be opened (return
`false`, nothing assigned); an opened file yields nine row-major numbers
into `mis_mat_`, nine into `scale_mat_`, three into `bias_vec_`, and
`true`. -/
def load (c : CalibratedTriad) (file : Option (List ℚ)) :
    CalibratedTriad × Bool :=
  match file with
  | none => (c, false)
  | some s =>
    let r1 := readNums 9 s
    let r2 := readNums 9 r1.2
    let r3 := readNums 3 r2.2
    ({ c with mis_mat_ := Mat3.ofRowMajor r1.1,
              scale_mat_ := Mat3.ofRowMajor r2.1,
              bias_vec_ := Vec3.ofList r3.1 },
     true)

/-- The numbers `save` streams to an opened file: `mis_mat_`, then
`scale_mat_`, then `bias_vec_`, each row by row (blank lines carry no
numbers). -/
def saveContents (c : CalibratedTriad) : List ℚ :=
  c.mis_mat_.rowMajor ++ c.scale_mat_.rowMajor ++
    [c.bias_vec_.x, c.bias_vec_.y, c.bias_vec_.z]

/-- `save(filename)`: `canOpen` says whether the destination opens; on
success the contents are written and `true` returned, otherwise `false`. -/
def save (c : CalibratedTriad) (canOpen : Bool) : Bool × Option (List ℚ) :=
  if canOpen then (true, some (saveContents c)) else (false, none)

end CalibratedTriad

/-- Helper: `load` on an opened file holding at least 21 numbers, written
out explicitly — the first nine go row-major into `mis_mat_`, the next
nine row-major into `scale_mat_`, the next three into `bias_vec_`, and
nothing else changes. -/
theorem CalibratedTriad.load_some_explicit (c : CalibratedTriad)
    (a1 a2 a3 a4 a5 a6 a7 a8 a9 k1 k2 k3 k4 k5 k6 k7 k8 k9 v1 v2 v3 : ℚ)
    (rest : List ℚ) :
    CalibratedTriad.load c
      (some (a1 :: a2 :: a3 :: a4 :: a5 :: a6 :: a7 :: a8 :: a9 ::
             k1 :: k2 :: k3 :: k4 :: k5 :: k6 :: k7 :: k8 :: k9 ::
             v1 :: v2 :: v3 :: rest)) =
      ({ c with mis_mat_ := ⟨a1, a2, a3, a4, a5, a6, a7, a8, a9⟩,
                scale_mat_ := ⟨k1, k2, k3, k4, k5, k6, k7, k8, k9⟩,
                bias_vec_ := ⟨v1, v2, v3⟩ }, true) :=
  rfl

/-- The mutable state of the `staticIntervalsDetector` scan: the output
vector `intervals`, `current_interval` and `previous_id`. -/
structure DetState where
  intervals : List DataInterval
  cur : DataInterval
  prev : Int
deriving DecidableEq, Repr

/-- One iteration of the scan loop at index `i` on a sample with interval
id `id`, translated branch by branch from `filters.cpp`. -/
def detStep (i : Int) (id : Int) (s : DetState) : DetState :=
  if id ≠ -1 then
    let s1 :=
      if id ≠ s.prev then
        let ints :=
          if s.cur.start_idx ≠ -1 then s.intervals ++ [s.cur] else s.intervals
        { intervals := ints, cur := { s.cur with start_idx := i }, prev := id }
      else s
    if id = s1.prev then { s1 with cur := { s1.cur with end_idx := i } } else s1
  else s

/-- The `for` loop: fold `detStep` over the ids, tracking the index. -/
def detLoop : List Int → Int → DetState → DetState
  | [], _, s => s
  | id :: rest, i, s => detLoop rest (i + 1) (detStep i id s)

/-- `staticIntervalsDetector`: clear the output, scan all samples, then
unconditionally push the final `current_interval` (as the source does). -/
def staticIntervalsDetector (samples : List TriadData) : List DataInterval :=
  let s := detLoop (samples.map TriadData.interval_id) 0 ⟨[], ⟨-1, -1⟩, -1⟩
  s.intervals ++ [s.cur]

/-- The ten samples of the spec's segmentation example, carrying interval
ids `[1,1,1,2,2,-1,-1,3,3,3]`. -/
def exampleSamples : List TriadData :=
  [⟨0, ⟨0, 0, 0⟩, 1⟩, ⟨1, ⟨0, 0, 0⟩, 1⟩, ⟨2, ⟨0, 0, 0⟩, 1⟩,
   ⟨3, ⟨0, 0, 0⟩, 2⟩, ⟨4, ⟨0, 0, 0⟩, 2⟩,
   ⟨5, ⟨0, 0, 0⟩, -1⟩, ⟨6, ⟨0, 0, 0⟩, -1⟩,
   ⟨7, ⟨0, 0, 0⟩, 3⟩, ⟨8, ⟨0, 0, 0⟩, 3⟩, ⟨9, ⟨0, 0, 0⟩, 3⟩]

/-- C3: for every parameter set and every 3-vector `X`, on the triad
constructed from those parameters, `unbiasNormalize(X) = M·(X − bias)`,
`normalize(X) = M·X` and `unbias(X) = X − bias`, with `M` the product of
the misalignment and scale matrices and `bias` the held bias vector. -/
theorem calibratedTriad_transform_formulas
    (mis_yz mis_zy mis_zx mis_xz mis_xy mis_yx s_x s_y s_z b_x b_y b_z : ℚ)
    (X : Vec3) :
    ((CalibratedTriad.init mis_yz mis_zy mis_zx mis_xz mis_xy mis_yx
        s_x s_y s_z b_x b_y b_z).unbiasNormalize X).2 =
      (Mat3.mul
        (CalibratedTriad.init mis_yz mis_zy mis_zx mis_xz mis_xy mis_yx
          s_x s_y s_z b_x b_y b_z).mis_mat_
        (CalibratedTriad.init mis_yz mis_zy mis_zx mis_xz mis_xy mis_yx
          s_x s_y s_z b_x b_y b_z).scale_mat_).mulVec
        (X.sub (CalibratedTriad.init mis_yz mis_zy mis_zx mis_xz mis_xy mis_yx
          s_x s_y s_z b_x b_y b_z).bias_vec_) ∧
    ((CalibratedTriad.init mis_yz mis_zy mis_zx mis_xz mis_xy mis_yx
        s_x s_y s_z b_x b_y b_z).normalize X).2 =
      (Mat3.mul
        (CalibratedTriad.init mis_yz mis_zy mis_zx mis_xz mis_xy mis_yx
          s_x s_y s_z b_x b_y b_z).mis_mat_
        (CalibratedTriad.init mis_yz mis_zy mis_zx mis_xz mis_xy mis_yx
          s_x s_y s_z b_x b_y b_z).scale_mat_).mulVec X ∧
    ((CalibratedTriad.init mis_yz mis_zy mis_zx mis_xz mis_xy mis_yx
        s_x s_y s_z b_x b_y b_z).unbias X).2 =
      X.sub (CalibratedTriad.init mis_yz mis_zy mis_zx mis_xz mis_xy mis_yx
        s_x s_y s_z b_x b_y b_z).bias_vec_ :=
  ⟨rfl, rfl, rfl⟩

/-- C10: the three transform operations, in both the plain-vector and the
timestamped-sample overloads, return the receiver unchanged: every field
of the `CalibratedTriad` is identical before and after the call. -/
theorem calibratedTriad_transform_frame (c : CalibratedTriad) (X : Vec3)
    (d : TriadData) :
    (c.normalize X).1 = c ∧ (c.unbiasNormalize X).1 = c ∧
    (c.unbias X).1 = c ∧ (c.normalizeData d).1 = c ∧
    (c.unbiasNormalizeData d).1 = c ∧ (c.unbiasData d).1 = c :=
  ⟨rfl, rfl, rfl, rfl, rfl, rfl⟩

/-- C1 evaluation: the cache invariant fails after the mutators.  On a
default-constructed triad, `setBias((1,2,3))` updates the bias parameters
but leaves `bias_vec_` at zero; `setScale((2,2,2))` updates the scale
parameters but leaves `scale_mat_` at identity; and `load` of a file
holding identity misalignment, `diag(2,2,2)` scale and zero bias leaves
`ms_mat_` different from `mis_mat_ * scale_mat_`. -/
theorem calibratedTriad_stale_cache_eval :
    ((CalibratedTriad.initDefault.setBias ⟨1, 2, 3⟩).b_x_ = 1 ∧
     (CalibratedTriad.initDefault.setBias ⟨1, 2, 3⟩).bias_vec_ ≠ ⟨1, 2, 3⟩) ∧
    ((CalibratedTriad.initDefault.setScale ⟨2, 2, 2⟩).s_x_ = 2 ∧
     (CalibratedTriad.initDefault.setScale ⟨2, 2, 2⟩).scale_mat_ ≠
       ⟨2, 0, 0, 0, 2, 0, 0, 0, 2⟩) ∧
    ((CalibratedTriad.initDefault.load
        (some [1, 0, 0, 0, 1, 0, 0, 0, 1,
               2, 0, 0, 0, 2, 0, 0, 0, 2,
               0, 0, 0])).1.ms_mat_ ≠
      Mat3.mul
        (CalibratedTriad.initDefault.load
          (some [1, 0, 0, 0, 1, 0, 0, 0, 1,
                 2, 0, 0, 0, 2, 0, 0, 0, 2,
                 0, 0, 0])).1.mis_mat_
        (CalibratedTriad.initDefault.load
          (some [1, 0, 0, 0, 1, 0, 0, 0, 1,
                 2, 0, 0, 0, 2, 0, 0, 0, 2,
                 0, 0, 0])).1.scale_mat_) := by
  refine ⟨⟨rfl, ?_⟩, ⟨rfl, ?_⟩, ?_⟩
  · simp [CalibratedTriad.setBias, CalibratedTriad.initDefault,
      CalibratedTriad.init]
  · simp [CalibratedTriad.setScale, CalibratedTriad.initDefault,
      CalibratedTriad.init]
  · rw [CalibratedTriad.load_some_explicit]
    simp [CalibratedTriad.initDefault, CalibratedTriad.init, Mat3.mul,
      Mat3.mk.injEq]

/-- Helper: reading `n` numbers from a stream holding at least `n` takes
the first `n` and leaves the rest. -/
theorem readNums_eq_take_drop :
    ∀ (n : Nat) (s : List ℚ), n ≤ s.length →
      CalibratedTriad.readNums n s = (s.take n, s.drop n) := by
  intro n
  induction n with
  | zero => intro s _; simp [CalibratedTriad.readNums]
  | succ n ih =>
    intro s hs
    cases s with
    | nil => simp at hs
    | cons a t =>
      have ht : n ≤ t.length := by simpa using Nat.le_of_succ_le_succ hs
      simp [CalibratedTriad.readNums, CalibratedTriad.streamRead, ih t ht]

/-- C7: `load` fails (returns `false`, boolean, never an exception)
exactly on a file that cannot be opened and succeeds on any opened file;
`save` returns success exactly when the destination opens, writing the
contents then; on an opened file with at least 21 numbers, `load` reads
9 + 9 + 3 numbers in fixed order into the misalignment matrix, the scale
matrix and the bias vector. -/
theorem calibratedTriad_save_load_failure (c : CalibratedTriad) (ns : List ℚ)
    (canOpen : Bool) :
    c.load none = (c, false) ∧
    (c.load (some ns)).2 = true ∧
    (c.save canOpen).1 = canOpen ∧
    c.save true = (true, some c.saveContents) ∧
    c.save false = (false, none) ∧
    (21 ≤ ns.length →
      (c.load (some ns)).1.getMisalignmentMatrix =
          Mat3.ofRowMajor (ns.take 9) ∧
      (c.load (some ns)).1.getScaleMatrix =
          Mat3.ofRowMajor ((ns.drop 9).take 9) ∧
      (c.load (some ns)).1.getBiasVector =
          Vec3.ofList ((ns.drop 18).take 3)) := by
  refine ⟨rfl, rfl, by cases canOpen <;> rfl, rfl, rfl, ?_⟩
  intro h21
  have h1 : CalibratedTriad.readNums 9 ns = (ns.take 9, ns.drop 9) :=
    readNums_eq_take_drop 9 ns (by omega)
  have h2 : CalibratedTriad.readNums 9 (ns.drop 9) =
      ((ns.drop 9).take 9, (ns.drop 9).drop 9) :=
    readNums_eq_take_drop 9 (ns.drop 9) (by simp; omega)
  have h3 : CalibratedTriad.readNums 3 ((ns.drop 9).drop 9) =
      (((ns.drop 9).drop 9).take 3, ((ns.drop 9).drop 9).drop 3) :=
    readNums_eq_take_drop 3 ((ns.drop 9).drop 9) (by simp; omega)
  have hdd : (ns.drop 9).drop 9 = ns.drop 18 := by
    simp [List.drop_drop]
  rw [hdd] at h3
  refine ⟨?_, ?_, ?_⟩ <;>
    simp [CalibratedTriad.load, CalibratedTriad.getMisalignmentMatrix,
      CalibratedTriad.getScaleMatrix, CalibratedTriad.getBiasVector,
      h1, h2, h3, hdd]

/-- A concrete 21-number calibration file used as witness input. -/
def witnessFile : List ℚ :=
  [1, 2, 3, 4, 5, 6, 7, 8, 9, 10, 11, 12, 13, 14, 15, 16, 17, 18, 19, 20, 21]

/-- Witness for C7: the hypotheses hold and the conclusion follows at the
default triad, the concrete 21-number file, and an openable destination. -/
theorem calibratedTriad_save_load_failure_witness :
    21 ≤ witnessFile.length ∧
    ((CalibratedTriad.initDefault.load (some witnessFile)).1.getMisalignmentMatrix =
        Mat3.ofRowMajor (witnessFile.take 9) ∧
     (CalibratedTriad.initDefault.load (some witnessFile)).1.getScaleMatrix =
        Mat3.ofRowMajor ((witnessFile.drop 9).take 9) ∧
     (CalibratedTriad.initDefault.load (some witnessFile)).1.getBiasVector =
        Vec3.ofList ((witnessFile.drop 18).take 3)) :=
  ⟨by decide,
   (calibratedTriad_save_load_failure CalibratedTriad.initDefault witnessFile
     true).2.2.2.2.2 (by decide)⟩

/-- C8: `save` to a writable file followed by `load` from that file, on
any receiving triad, reproduces the saved misalignment matrix, scale
matrix and bias vector exactly, and the load succeeds. -/
theorem calibratedTriad_save_load_roundtrip (c c2 : CalibratedTriad) :
    ((c2.load (c.save true).2).1.getMisalignmentMatrix =
        c.getMisalignmentMatrix ∧
     (c2.load (c.save true).2).1.getScaleMatrix = c.getScaleMatrix ∧
     (c2.load (c.save true).2).1.getBiasVector = c.getBiasVector) ∧
    (c2.load (c.save true).2).2 = true :=
  ⟨⟨rfl, rfl, rfl⟩, rfl⟩

/-- C9: on any opened file, `load` assigns only the three cached matrices:
the twelve scalar accessors `misYZ` … `biasZ` and the cached product
matrix `ms_mat_` are unchanged. -/
theorem calibratedTriad_load_frame (c : CalibratedTriad) (ns : List ℚ) :
    (c.load (some ns)).1.misYZ = c.misYZ ∧
    (c.load (some ns)).1.misZY = c.misZY ∧
    (c.load (some ns)).1.misZX = c.misZX ∧
    (c.load (some ns)).1.misXZ = c.misXZ ∧
    (c.load (some ns)).1.misXY = c.misXY ∧
    (c.load (some ns)).1.misYX = c.misYX ∧
    (c.load (some ns)).1.scaleX = c.scaleX ∧
    (c.load (some ns)).1.scaleY = c.scaleY ∧
    (c.load (some ns)).1.scaleZ = c.scaleZ ∧
    (c.load (some ns)).1.biasX = c.biasX ∧
    (c.load (some ns)).1.biasY = c.biasY ∧
    (c.load (some ns)).1.biasZ = c.biasZ ∧
    (c.load (some ns)).1.ms_mat_ = c.ms_mat_ :=
  ⟨rfl, rfl, rfl, rfl, rfl, rfl, rfl, rfl, rfl, rfl, rfl, rfl, rfl⟩

/-- C2 evaluation: on the empty sample sequence the detector does not
return an empty list — the unconditional final `push_back` emits the
never-opened interval `(-1,-1)`. -/
theorem staticIntervalsDetector_empty_eval :
    staticIntervalsDetector [] = [⟨-1, -1⟩] := by
  decide

/-- C4: on ids `[1,1,1,2,2,-1,-1,3,3,3]` the detector returns exactly
`[(0,2),(3,4),(7,9)]`, in that order; the sentinel run contributes no
interval. -/
theorem staticIntervalsDetector_example :
    staticIntervalsDetector exampleSamples = [⟨0, 2⟩, ⟨3, 4⟩, ⟨7, 9⟩] := by
  decide

/-- Helper: a sentinel-id sample leaves the scan state untouched. -/
theorem detStep_sentinel (i : Int) (s : DetState) : detStep i (-1) s = s := by
  simp [detStep]

/-- Helper: a non-sentinel sample whose id differs from `previous_id`
while no run is open starts a run at `i` without emitting anything. -/
theorem detStep_open (i id : Int) (s : DetState) (h1 : id ≠ -1)
    (h2 : id ≠ s.prev) (h3 : s.cur.start_idx = -1) :
    detStep i id s = ⟨s.intervals, ⟨i, i⟩, id⟩ := by
  simp [detStep, h1, h2, h3]

/-- Helper: a non-sentinel sample whose id differs from `previous_id`
while a run is open emits the open run and starts a new one at `i`. -/
theorem detStep_push (i id : Int) (s : DetState) (h1 : id ≠ -1)
    (h2 : id ≠ s.prev) (h3 : s.cur.start_idx ≠ -1) :
    detStep i id s = ⟨s.intervals ++ [s.cur], ⟨i, i⟩, id⟩ := by
  simp [detStep, h1, h2, h3]

/-- Helper: a non-sentinel sample whose id equals `previous_id` extends
the open run's end to `i`. -/
theorem detStep_extend (i id : Int) (s : DetState) (h1 : id ≠ -1)
    (h2 : id = s.prev) :
    detStep i id s = ⟨s.intervals, ⟨s.cur.start_idx, i⟩, s.prev⟩ := by
  subst h2
  simp [detStep, h1]

/-- Helper: scanning a constant run of the current id only advances the
open run's end (or leaves it alone when the run is empty). -/
theorem detLoop_replicate (k : Int) (hk : k ≠ -1) :
    ∀ (m : Nat) (i : Int) (L : List DataInterval) (a b : Int),
      detLoop (List.replicate m k) i ⟨L, ⟨a, b⟩, k⟩ =
        ⟨L, ⟨a, if m = 0 then b else i + (m : Int) - 1⟩, k⟩ := by
  intro m
  induction m with
  | zero => intro i L a b; simp [detLoop]
  | succ n ih =>
    intro i L a b
    rw [List.replicate_succ]
    show detLoop (List.replicate n k) (i + 1)
        (detStep i k ⟨L, ⟨a, b⟩, k⟩) = _
    rw [detStep_extend i k ⟨L, ⟨a, b⟩, k⟩ hk rfl]
    rw [ih (i + 1) L a i]
    have hE : (if n = 0 then i else i + 1 + (n : Int) - 1) =
        if n + 1 = 0 then b else i + ((n + 1 : Nat) : Int) - 1 := by
      rcases Nat.eq_zero_or_pos n with hn | hn
      · subst hn
        rw [if_pos rfl, if_neg (by omega)]
        omega
      · rw [if_neg (by omega), if_neg (by omega)]
        omega
    rw [hE]

/-- C5: on a non-empty sequence whose samples all carry the same
non-sentinel interval id, the detector returns exactly one interval
spanning index 0 through the last index. -/
theorem staticIntervalsDetector_const_id (samples : List TriadData)
    (k : Int) (hne : samples ≠ []) (hk : k ≠ -1)
    (hall : ∀ t ∈ samples, t.interval_id = k) :
    staticIntervalsDetector samples =
      [⟨0, (samples.length : Int) - 1⟩] := by
  have hids : samples.map TriadData.interval_id =
      List.replicate samples.length k := by
    have : ∀ b ∈ samples.map TriadData.interval_id, b = k := by
      intro b hb
      rcases List.mem_map.1 hb with ⟨t, ht, rfl⟩
      exact hall t ht
    calc samples.map TriadData.interval_id
        = List.replicate (samples.map TriadData.interval_id).length k :=
          List.eq_replicate_length.2 this
      _ = List.replicate samples.length k := by rw [List.length_map]
  rcases hlen : samples.length with _ | m
  · exact absurd (List.length_eq_zero.1 hlen) hne
  · unfold staticIntervalsDetector
    rw [hids, hlen, List.replicate_succ]
    show (detLoop (List.replicate m k) 1
          (detStep 0 k ⟨[], ⟨-1, -1⟩, -1⟩)).intervals ++
        [(detLoop (List.replicate m k) 1
          (detStep 0 k ⟨[], ⟨-1, -1⟩, -1⟩)).cur] = _
    have hopen : detStep 0 k ⟨[], ⟨-1, -1⟩, -1⟩ = ⟨[], ⟨0, 0⟩, k⟩ :=
      detStep_open 0 k ⟨[], ⟨-1, -1⟩, -1⟩ hk (by simpa using hk) rfl
    rw [hopen, detLoop_replicate k hk m 1 [] 0 0]
    have hE : (if m = 0 then (0 : Int) else 1 + (m : Int) - 1) =
        ((m + 1 : Nat) : Int) - 1 := by
      rcases Nat.eq_zero_or_pos m with hm | hm
      · subst hm
        rw [if_pos rfl]
        omega
      · rw [if_neg (by omega)]
        omega
    rw [hE]
    rfl

/-- The detector's loop invariant before processing index `i`: either no
run has ever been opened (the state is still the initial one), or a run
is open, and the emitted list followed by the open run is a family of
well-formed intervals, all ending before `i`, pairwise ordered with
disjoint ranges. -/
def DetInv (i : Int) (s : DetState) : Prop :=
  (s.intervals = [] ∧ s.cur = ⟨-1, -1⟩ ∧ s.prev = -1) ∨
  (s.prev ≠ -1 ∧ 0 ≤ s.cur.start_idx ∧
   (∀ iv ∈ s.intervals ++ [s.cur], iv.start_idx ≤ iv.end_idx) ∧
   (∀ iv ∈ s.intervals ++ [s.cur], iv.end_idx < i) ∧
   List.Pairwise (fun a b => a.end_idx < b.start_idx)
     (s.intervals ++ [s.cur]))

/-- Helper: one loop iteration preserves the invariant. -/
theorem detStep_inv (i id : Int) (s : DetState) (hi : 0 ≤ i)
    (h : DetInv i s) : DetInv (i + 1) (detStep i id s) := by
  by_cases hid : id = -1
  · subst hid
    rw [detStep_sentinel]
    rcases h with hA | ⟨h1, h2, h3, h4, h5⟩
    · exact Or.inl hA
    · exact Or.inr ⟨h1, h2, h3,
        fun iv hiv => by have := h4 iv hiv; omega, h5⟩
  · rcases h with ⟨hA1, hA2, hA3⟩ | ⟨h1, h2, h3, h4, h5⟩
    · rw [detStep_open i id s hid (by rw [hA3]; exact hid) (by rw [hA2]),
        hA1]
      refine Or.inr ⟨hid, hi, ?_, ?_, ?_⟩
      · intro iv hiv
        simp only [List.nil_append, List.mem_singleton] at hiv
        subst hiv
        exact le_refl i
      · intro iv hiv
        simp only [List.nil_append, List.mem_singleton] at hiv
        subst hiv
        show i < i + 1
        omega
      · simp only [List.nil_append]
        exact List.pairwise_singleton _ _
    · have hc3 : s.cur.start_idx ≤ s.cur.end_idx :=
        h3 s.cur (List.mem_append_right _ (List.mem_singleton_self _))
      have hc4 : s.cur.end_idx < i :=
        h4 s.cur (List.mem_append_right _ (List.mem_singleton_self _))
      by_cases heq : id = s.prev
      · rw [detStep_extend i id s hid heq]
        rcases List.pairwise_append.1 h5 with ⟨hp1, _, hp3⟩
        refine Or.inr ⟨h1, h2, ?_, ?_, ?_⟩
        · intro iv hiv
          rcases List.mem_append.1 hiv with hl | hr
          · exact h3 iv (List.mem_append_left _ hl)
          · rw [List.mem_singleton.1 hr]
            show s.cur.start_idx ≤ i
            omega
        · intro iv hiv
          rcases List.mem_append.1 hiv with hl | hr
          · have := h4 iv (List.mem_append_left _ hl)
            omega
          · rw [List.mem_singleton.1 hr]
            show i < i + 1
            omega
        · refine List.pairwise_append.2 ⟨hp1, List.pairwise_singleton _ _, ?_⟩
          intro a ha b hb
          rw [List.mem_singleton.1 hb]
          have := hp3 a ha s.cur (List.mem_singleton_self _)
          exact this
      · have hstart : s.cur.start_idx ≠ -1 := by omega
        rw [detStep_push i id s hid heq hstart]
        refine Or.inr ⟨hid, hi, ?_, ?_, ?_⟩
        · intro iv hiv
          rcases List.mem_append.1 hiv with hl | hr
          · exact h3 iv hl
          · rw [List.mem_singleton.1 hr]
        · intro iv hiv
          rcases List.mem_append.1 hiv with hl | hr
          · have := h4 iv hl
            omega
          · rw [List.mem_singleton.1 hr]
            show i < i + 1
            omega
        · refine List.pairwise_append.2
            ⟨h5, List.pairwise_singleton _ _, ?_⟩
          intro a ha b hb
          rw [List.mem_singleton.1 hb]
          exact h4 a ha

/-- Helper: the whole scan preserves the invariant. -/
theorem detLoop_inv :
    ∀ (ids : List Int) (i : Int) (s : DetState), 0 ≤ i → DetInv i s →
      DetInv (i + (ids.length : Int)) (detLoop ids i s) := by
  intro ids
  induction ids with
  | nil => intro i s _ h; simpa using h
  | cons id rest ih =>
    intro i s hi h
    have hrec := ih (i + 1) (detStep i id s) (by omega)
      (detStep_inv i id s hi h)
    have hcast : i + (((id :: rest).length : Nat) : Int) =
        (i + 1) + ((rest.length : Nat) : Int) := by
      simp only [List.length_cons]
      push_cast
      omega
    rw [hcast]
    exact hrec

/-- C6: every interval the detector returns satisfies
`start_idx ≤ end_idx`, the returned list has strictly increasing
`start_idx`, and the index ranges are mutually non-overlapping
(each interval ends strictly before any later one starts). -/
theorem staticIntervalsDetector_ordered (samples : List TriadData) :
    (∀ iv ∈ staticIntervalsDetector samples,
        iv.start_idx ≤ iv.end_idx) ∧
    List.Pairwise (fun a b => a.start_idx < b.start_idx)
      (staticIntervalsDetector samples) ∧
    List.Pairwise (fun a b => a.end_idx < b.start_idx)
      (staticIntervalsDetector samples) := by
  have h0 : DetInv 0 ⟨[], ⟨-1, -1⟩, -1⟩ := Or.inl ⟨rfl, rfl, rfl⟩
  have h := detLoop_inv (samples.map TriadData.interval_id) 0
    ⟨[], ⟨-1, -1⟩, -1⟩ (le_refl 0) h0
  rw [show staticIntervalsDetector samples =
      (detLoop (samples.map TriadData.interval_id) 0
        ⟨[], ⟨-1, -1⟩, -1⟩).intervals ++
      [(detLoop (samples.map TriadData.interval_id) 0
        ⟨[], ⟨-1, -1⟩, -1⟩).cur] from rfl]
  rcases h with ⟨hA1, hA2, _⟩ | ⟨_, _, h3, _, h5⟩
  · rw [hA1, hA2]
    refine ⟨?_, ?_, ?_⟩
    · intro iv hiv
      simp only [List.nil_append, List.mem_singleton] at hiv
      subst hiv
      exact le_refl (-1)
    · simp only [List.nil_append]
      exact List.pairwise_singleton _ _
    · simp only [List.nil_append]
      exact List.pairwise_singleton _ _
  · refine ⟨h3, ?_, h5⟩
    refine List.Pairwise.imp_of_mem ?_ h5
    intro a b ha hb hr
    have hab := h3 a ha
    omega

/-- Two concrete samples sharing the non-sentinel id 5, used as witness
input. -/
def constSamples : List TriadData :=
  [⟨0, ⟨0, 0, 0⟩, 5⟩, ⟨1, ⟨0, 0, 0⟩, 5⟩]

/-- Witness for C5: the hypotheses hold and the conclusion follows on the
two-sample constant-id sequence. -/
theorem staticIntervalsDetector_const_id_witness :
    constSamples ≠ [] ∧ (5 : Int) ≠ -1 ∧
    (∀ t ∈ constSamples, t.interval_id = 5) ∧
    staticIntervalsDetector constSamples =
      [⟨0, (constSamples.length : Int) - 1⟩] :=
  ⟨by decide, by decide, by decide,
   staticIntervalsDetector_const_id constSamples 5 (by decide) (by decide)
     (by decide)⟩

end ImuTk
